import Mathlib

/-!
Shallow embedding of `jules-scratch/verification/verify_theme_switching.py`,
a Playwright end-to-end script that launches Chromium with the Password Memo
extension loaded, discovers the extension's identifier from the open pages
and service workers, opens the options page and takes three screenshots
while clicking the "Light" and "Dark" theme buttons.

The embedding models the Python string operations used by the script
(`str.startswith`, the `in` substring test, `str.split("/")` and list
indexing, which raises `IndexError` out of range) over `List Char`, and the
script body `test_theme_switching` as a function from an environment
describing the browser's observable behaviour to the list of effects the
script performs together with its outcome (normal return or a propagated
exception).
-/

namespace PasswordMemo

/-- Exceptions the modelled script can raise: `IndexError` from list
indexing, a `TimeoutError` from the bounded visibility wait, and an
explicit `raise Exception(msg)`. -/
inductive PyError where
  | indexError
  | timeoutError
  | raised (msg : String)
  deriving Repr, DecidableEq

/-- Python `s.startswith(pre)`: the characters of `pre` form a prefix of
the characters of `s`. -/
def pyStartsWith (s pre : String) : Bool :=
  decide (pre.data <+: s.data)

/-- Python `sub in s` on strings: the characters of `sub` occur contiguously
inside the characters of `s`. -/
def pyContains (s sub : String) : Bool :=
  decide (sub.data <:+: s.data)

/-- Python `s.split(sep)` for a one-character separator `sep`: splits on
every occurrence of `sep`, keeping empty fields, so that
`"a//b".split("/") == ["a", "", "b"]` and `"".split("/") == [""]`. -/
def pySplit (s : String) (sep : Char) : List String :=
  (s.data.splitOn sep).map String.mk

/-- Python list indexing `l[i]` for a non-negative index: returns the
element when `i` is in range and raises `IndexError` otherwise. -/
def pyIndex (l : List String) (i : Nat) : Except PyError String :=
  match l[i]? with
  | some x => Except.ok x
  | none => Except.error PyError.indexError

deriving instance DecidableEq for Except

/-- One open browser page, as the script observes it: its URL, and the
result of querying its title (`page.title()` can raise, e.g. on a page
that navigated away; the script wraps the query in `try/except`). -/
structure Page where
  url : String
  title : Except Unit String
  deriving Repr, DecidableEq

/-- One service worker, as the script observes it: only its URL is used. -/
structure ServiceWorker where
  url : String
  deriving Repr, DecidableEq

/-- URL scheme the page scan filters on (`verify_theme_switching.py:24`). -/
def extensionScheme : String := "chrome-extension://"

/-- Page title the page scan compares against
(`verify_theme_switching.py:26`). -/
def expectedTitle : String := "Password Memo"

/-- Message of the exception raised when discovery fails
(`verify_theme_switching.py:39`). -/
def notFoundMsg : String := "Could not find extension ID"

/-- The page-scan loop of `test_theme_switching`
(`verify_theme_switching.py:23-30`): walk the open pages in order; for a
page whose URL starts with `chrome-extension://`, query its title inside
`try/except Exception: pass`, and on an exact title match take element 2 of
the URL split on `/` and `break`. A title query that raises, or an
out-of-range index, is swallowed by the `except: pass` and the scan
continues with the next page. Returns the identifier assigned by the loop,
or `none` when the loop finishes without assigning one. -/
def scanPages : List Page → Option String
  | [] => none
  | p :: rest =>
    if pyStartsWith p.url extensionScheme then
      match p.title with
      | Except.ok t =>
        if t = expectedTitle then
          match pyIndex (pySplit p.url '/') 2 with
          | Except.ok id => some id
          | Except.error _ => scanPages rest
        else scanPages rest
      | Except.error _ => scanPages rest
    else scanPages rest

/-- The service-worker fallback loop of `test_theme_switching`
(`verify_theme_switching.py:32-36`): walk the service workers in order and,
for the first whose URL contains the substring `"background"`, take element
2 of the URL split on `/` and `break`. The indexing is not guarded by any
`try/except`, so an out-of-range index propagates as `IndexError`. Returns
`ok none` when no worker matches. -/
def scanWorkers : List ServiceWorker → Except PyError (Option String)
  | [] => Except.ok none
  | w :: rest =>
    if pyContains w.url "background" then
      match pyIndex (pySplit w.url '/') 2 with
      | Except.ok id => Except.ok (some id)
      | Except.error e => Except.error e
    else scanWorkers rest

/-- Python truthiness of the `extension_id` variable, whose value is
`None` or a string: `None` and `""` are falsy, every other string truthy
(`if not extension_id`, `verify_theme_switching.py:32` and `:38`). -/
def truthy : Option String → Bool
  | none => false
  | some s => !(s == "")

/-- The identifier-discovery phase of `test_theme_switching`
(`verify_theme_switching.py:22-39`): run the page scan; if its result is
falsy, run the service-worker fallback (whose `IndexError`, if any,
propagates); if the final value of `extension_id` is still falsy, raise
`Exception("Could not find extension ID")`, otherwise return it. -/
def getExtensionId (pages : List Page) (workers : List ServiceWorker) :
    Except PyError String :=
  let id0 := scanPages pages
  let step : Except PyError (Option String) :=
    if truthy id0 then Except.ok id0
    else
      match scanWorkers workers with
      | Except.error e => Except.error e
      | Except.ok (some id) => Except.ok (some id)
      | Except.ok none => Except.ok id0
  match step with
  | Except.error e => Except.error e
  | Except.ok none => Except.error (PyError.raised notFoundMsg)
  | Except.ok (some id) =>
    if id = "" then Except.error (PyError.raised notFoundMsg)
    else Except.ok id

/-- Effects the script performs, in the order it performs them: launching
the persistent context, the fixed two-second sleep, opening a new page,
navigation, the bounded visibility wait, directory creation, screenshots,
clicks (`get_by_role`), and closing the context. -/
inductive Event where
  | launch
  | sleep (seconds : Nat)
  | newPage
  | goto (url : String)
  | waitVisible (text : String) (timeoutMs : Nat)
  | mkdirs (path : String) (existOk : Bool)
  | screenshot (path : String)
  | click (role : String) (name : String)
  | closeContext
  deriving Repr, DecidableEq

/-- The browser-side behaviour the script cannot control: which pages and
service workers are open after the two-second sleep, the time (in
milliseconds) at which the text "Theme" becomes visible on the options page
(`none` when it never does), and whether each of the two button clicks
succeeds or raises. -/
structure Env where
  pages : List Page
  workers : List ServiceWorker
  themeVisibleMs : Option Nat
  lightClick : Except PyError Unit
  darkClick : Except PyError Unit

/-- Timeout of the visibility wait, in milliseconds
(`verify_theme_switching.py:50`). -/
def expectTimeout : Nat := 10000

/-- Directory created for the screenshots (`verify_theme_switching.py:53`). -/
def verificationDir : String := "jules-scratch/verification"

/-- Path of the first screenshot (`verify_theme_switching.py:56`). -/
def shot1 : String := "jules-scratch/verification/01_default_theme.png"

/-- Path of the second screenshot (`verify_theme_switching.py:60`). -/
def shot2 : String := "jules-scratch/verification/02_light_theme.png"

/-- Path of the third screenshot (`verify_theme_switching.py:64`). -/
def shot3 : String := "jules-scratch/verification/03_dark_theme.png"

/-- The URL the script navigates to, built from the discovered identifier:
`f"chrome-extension:{extension_id}/options.html"` with the scheme spelled
out (`verify_theme_switching.py:43`). -/
def optionsPageUrl (extensionId : String) : String :=
  "chrome-extension://" ++ extensionId ++ "/options.html"

/-- Effects performed before identifier discovery: the launch of the
persistent context and `time.sleep(2)`
(`verify_theme_switching.py:10-19`). -/
def startTrace : List Event :=
  [Event.launch, Event.sleep 2]

/-- Whether `expect(page.get_by_text("Theme")).to_be_visible(timeout=10000)`
succeeds in environment `env`: the text must become visible within the
10000 ms bound. -/
def themeVisible (env : Env) : Bool :=
  match env.themeVisibleMs with
  | some ms => decide (ms ≤ expectTimeout)
  | none => false

/-- The body of `test_theme_switching` (`verify_theme_switching.py:5-66`):
discover the extension identifier (aborting on its error), open a new page
on the options URL, wait for "Theme" with a 10-second timeout (aborting
with `TimeoutError` when it never becomes visible in time), create the
output directory with `exist_ok=True`, then screenshot, click "Light",
screenshot, click "Dark", screenshot, and close the context. A failing
click aborts the run at that point. Returns the ordered list of performed
effects together with the outcome. -/
def test_theme_switching (env : Env) : List Event × Except PyError Unit :=
  match getExtensionId env.pages env.workers with
  | Except.error e => (startTrace, Except.error e)
  | Except.ok extensionId =>
    let navTrace := startTrace ++
      [Event.newPage, Event.goto (optionsPageUrl extensionId),
       Event.waitVisible "Theme" expectTimeout]
    if themeVisible env then
      let t2 := navTrace ++
        [Event.mkdirs verificationDir true, Event.screenshot shot1,
         Event.click "button" "Light"]
      match env.lightClick with
      | Except.error e => (t2, Except.error e)
      | Except.ok _ =>
        let t3 := t2 ++ [Event.screenshot shot2, Event.click "button" "Dark"]
        match env.darkClick with
        | Except.error e => (t3, Except.error e)
        | Except.ok _ =>
          (t3 ++ [Event.screenshot shot3, Event.closeContext], Except.ok ())
    else (navTrace, Except.error PyError.timeoutError)

/-- Screenshot events overwrite the file at their path: folding the trace
over a file system (a map from path to the index of the event that last
wrote it) replaces whatever was stored at the path before. -/
def fsAfter : List Event → (String → Option Nat) → Nat → (String → Option Nat)
  | [], fs, _ => fs
  | Event.screenshot p :: t, fs, n =>
    fsAfter t (fun q => if q = p then some n else fs q) (n + 1)
  | _ :: t, fs, n => fsAfter t fs (n + 1)

/-- Join a list of path components with `/`, the inverse of `pySplit`
used to name the ancestors a recursive directory creation produces. -/
def joinPath : List String → String
  | [] => ""
  | [x] => x
  | x :: xs => x ++ "/" ++ joinPath xs

/-- The directories `os.makedirs path` creates: every nonempty prefix of
the `/`-separated components of `path`, so for
`"jules-scratch/verification"` the directories `"jules-scratch"` and
`"jules-scratch/verification"`. -/
def ancestors (path : String) : List String :=
  (List.range (pySplit path '/').length).map
    fun k => joinPath ((pySplit path '/').take (k + 1))

/-- `os.makedirs(path, exist_ok=existOk)` over a set of existing
directories: raises `FileExistsError` when the full path already exists
and `exist_ok` is false, and otherwise creates the path and all its
missing ancestors (`verify_theme_switching.py:53`). -/
def makedirs (dirs : Finset String) (path : String) (existOk : Bool) :
    Except PyError (Finset String) :=
  if path ∈ dirs ∧ existOk = false then
    Except.error (PyError.raised "FileExistsError")
  else Except.ok (dirs ∪ (ancestors path).toFinset)

/-- The page-scan match condition: URL starts with `chrome-extension://`
and the title query answers exactly `Password Memo`. -/
def pageMatches (p : Page) : Bool :=
  pyStartsWith p.url extensionScheme && decide (p.title = Except.ok expectedTitle)

/-- The service-worker match condition: the URL contains `background`. -/
def workerMatches (w : ServiceWorker) : Bool :=
  pyContains w.url "background"

/-- Effects performed up to and including the visibility wait, for a
discovered identifier `id`. -/
def timeoutTrace (id : String) : List Event :=
  [Event.launch, Event.sleep 2, Event.newPage,
   Event.goto (optionsPageUrl id), Event.waitVisible "Theme" expectTimeout]

/-- Effects performed up to and including the click on "Light". -/
def lightTrace (id : String) : List Event :=
  timeoutTrace id ++
    [Event.mkdirs verificationDir true, Event.screenshot shot1,
     Event.click "button" "Light"]

/-- Effects performed up to and including the click on "Dark". -/
def darkTrace (id : String) : List Event :=
  lightTrace id ++ [Event.screenshot shot2, Event.click "button" "Dark"]

/-- Effects of a fully successful run. -/
def fullTrace (id : String) : List Event :=
  darkTrace id ++ [Event.screenshot shot3, Event.closeContext]

/-- A service worker whose URL is the extension's background script; its
second `/`-separated component is the extension identifier `abc`. -/
def bgWorker : ServiceWorker := ⟨"chrome-extension://abc/background.js"⟩

/-- A page whose title query raises (for instance because the page was
closed in the meantime). -/
def titleErrPage : Page := ⟨"chrome-extension://errpage/popup.html", Except.error ()⟩

/-- An extension page whose title matches, with identifier `goodid`. -/
def goodPage : Page := ⟨"chrome-extension://goodid/popup.html", Except.ok "Password Memo"⟩

/-- An extension page whose URL is the bare scheme, so that the extracted
identifier is the empty string. -/
def emptyIdPage : Page := ⟨"chrome-extension://", Except.ok "Password Memo"⟩

/-- A service worker whose URL contains `background` but splits into a
single component, so that indexing position 2 is out of range. -/
def shortWorker : ServiceWorker := ⟨"background"⟩

/-- Environment in which the first page's title query raises but a later
page matches, and every later step succeeds. -/
def envSuppressed : Env :=
  ⟨[titleErrPage, goodPage], [], some 0, Except.ok (), Except.ok ()⟩

/-- Environment with no extension context at all: the only page is a
regular web page and the only worker URL lacks `background`. -/
def envNoContext : Env :=
  ⟨[⟨"https://example.com", Except.ok "Password Memo"⟩], [⟨"sw.js"⟩],
   some 0, Except.ok (), Except.ok ()⟩

/-- Environment where discovery succeeds through the worker fallback but
the "Theme" text never becomes visible. -/
def envTimeout : Env := ⟨[], [bgWorker], none, Except.ok (), Except.ok ()⟩

/-- Environment of a fully successful run, discovering `abc` from the
background worker. -/
def envSuccess : Env := ⟨[], [bgWorker], some 0, Except.ok (), Except.ok ()⟩

theorem truthy_eq_false {o : Option String} :
    truthy o = false ↔ o = none ∨ o = some "" := by
  cases o with
  | none => simp [truthy]
  | some s => simp [truthy]

theorem pyIndex_eq_ok {l : List String} {i : Nat} {v : String} :
    pyIndex l i = Except.ok v ↔ l[i]? = some v := by
  cases h : l[i]? <;> simp [pyIndex, h]

theorem splitOn_data_scheme {s : String}
    (h : pyStartsWith s extensionScheme = true) :
    ∃ r : List (List Char),
      s.data.splitOn '/' = "chrome-extension:".data :: [] :: r ∧ r ≠ [] := by
  have hp : extensionScheme.data <+: s.data := by
    simpa [pyStartsWith] using h
  obtain ⟨t, ht⟩ := hp
  have hdata : s.data = "chrome-extension:".data ++ '/' :: ('/' :: t) := by
    rw [← ht]; rfl
  have h1 : ∀ x ∈ "chrome-extension:".data, ¬((x == '/') = true) := by decide
  refine ⟨t.splitOnP (· == '/'), ?_, List.splitOnP_ne_nil _ t⟩
  rw [hdata]
  show (("chrome-extension:".data ++ '/' :: ('/' :: t)).splitOnP (· == '/')) = _
  rw [List.splitOnP_first _ _ h1 '/' (by decide), List.splitOnP_cons]
  simp

theorem pySplit_scheme_get2 {s : String}
    (h : pyStartsWith s extensionScheme = true) :
    ∃ v, (pySplit s '/')[2]? = some v := by
  obtain ⟨r, hr, hne⟩ := splitOn_data_scheme h
  obtain ⟨a, r', rfl⟩ := List.exists_cons_of_ne_nil hne
  exact ⟨String.mk a, by simp [pySplit, hr]⟩

theorem scanPages_cons_of_match {p : Page} (rest : List Page)
    (h : pageMatches p = true) :
    scanPages (p :: rest) = (pySplit p.url '/')[2]? := by
  have h1 : pyStartsWith p.url extensionScheme = true := by
    have := h
    simp only [pageMatches, Bool.and_eq_true] at this
    exact this.1
  have h2 : p.title = Except.ok expectedTitle := by
    have := h
    simp only [pageMatches, Bool.and_eq_true, decide_eq_true_eq] at this
    exact this.2
  obtain ⟨v, hv⟩ := pySplit_scheme_get2 h1
  have hpi : pyIndex (pySplit p.url '/') 2 = Except.ok v := pyIndex_eq_ok.mpr hv
  simp [scanPages, h1, h2, hpi, hv]

theorem scanPages_cons_of_not_match {p : Page} (rest : List Page)
    (h : pageMatches p = false) :
    scanPages (p :: rest) = scanPages rest := by
  by_cases h1 : pyStartsWith p.url extensionScheme = true
  · have h2 : p.title ≠ Except.ok expectedTitle := by
      intro hc
      simp [pageMatches, h1, hc] at h
    cases ht : p.title with
    | error e => simp [scanPages, h1, ht]
    | ok t =>
      have hne : ¬(t = expectedTitle) := by
        intro hc
        exact h2 (by rw [ht, hc])
      simp [scanPages, h1, ht, hne]
  · have h1' : pyStartsWith p.url extensionScheme = false :=
      eq_false_of_ne_true h1
    simp [scanPages, h1']

theorem scanWorkers_cons_of_match {w : ServiceWorker} (rest : List ServiceWorker)
    (h : workerMatches w = true) :
    scanWorkers (w :: rest) = Except.map some (pyIndex (pySplit w.url '/') 2) := by
  have h1 : pyContains w.url "background" = true := h
  cases hpi : pyIndex (pySplit w.url '/') 2 with
  | ok v => simp [scanWorkers, h1, hpi, Except.map]
  | error e => simp [scanWorkers, h1, hpi, Except.map]

theorem scanWorkers_cons_of_not_match {w : ServiceWorker} (rest : List ServiceWorker)
    (h : workerMatches w = false) :
    scanWorkers (w :: rest) = scanWorkers rest := by
  have h1 : pyContains w.url "background" = false := h
  simp [scanWorkers, h1]

theorem scanWorkers_of_none_match {ws : List ServiceWorker}
    (h : ∀ w ∈ ws, workerMatches w = false) :
    scanWorkers ws = Except.ok none := by
  induction ws with
  | nil => rfl
  | cons w rest ih =>
    rw [scanWorkers_cons_of_not_match rest (h w (List.mem_cons_self w rest))]
    exact ih fun v hv => h v (List.mem_cons_of_mem w hv)

theorem getExtensionId_of_truthy {pages : List Page} (ws : List ServiceWorker)
    (h : truthy (scanPages pages) = true) :
    getExtensionId pages ws = Except.ok ((scanPages pages).getD "") := by
  cases ho : scanPages pages with
  | none => rw [ho] at h; simp [truthy] at h
  | some s =>
    rw [ho] at h
    have hs : ¬(s = "") := by simpa [truthy] using h
    simp [getExtensionId, ho, truthy, hs]

theorem getExtensionId_of_fallback {pages : List Page} (ws : List ServiceWorker)
    (h : truthy (scanPages pages) = false) :
    getExtensionId pages ws =
      match scanWorkers ws with
      | Except.error e => Except.error e
      | Except.ok none => Except.error (PyError.raised notFoundMsg)
      | Except.ok (some id) =>
        if id = "" then Except.error (PyError.raised notFoundMsg)
        else Except.ok id := by
  rcases truthy_eq_false.mp h with h0 | h0 <;>
    cases hw : scanWorkers ws with
    | error e => simp [getExtensionId, h, hw]
    | ok o =>
      cases o with
      | some id => simp [getExtensionId, h, hw]
      | none => simp [getExtensionId, h, hw, h0, truthy]

theorem getExtensionId_ok_cases {pages : List Page} {ws : List ServiceWorker}
    {id : String} (h : getExtensionId pages ws = Except.ok id) :
    scanPages pages = some id ∨ scanWorkers ws = Except.ok (some id) := by
  by_cases ht : truthy (scanPages pages) = true
  · left
    rw [getExtensionId_of_truthy ws ht] at h
    cases ho : scanPages pages with
    | none => rw [ho] at ht; simp [truthy] at ht
    | some s =>
      rw [ho] at h
      simpa using h
  · right
    rw [getExtensionId_of_fallback ws (eq_false_of_ne_true ht)] at h
    cases hw : scanWorkers ws with
    | error e => rw [hw] at h; simp at h
    | ok o =>
      cases o with
      | none => rw [hw] at h; simp at h
      | some v =>
        rw [hw] at h
        by_cases hv : v = ""
        · simp [hv] at h
        · simp [hv] at h
          rw [h]

theorem getExtensionId_ok_ne_empty {pages : List Page} {ws : List ServiceWorker}
    {id : String} (h : getExtensionId pages ws = Except.ok id) : id ≠ "" := by
  by_cases ht : truthy (scanPages pages) = true
  · rw [getExtensionId_of_truthy ws ht] at h
    cases ho : scanPages pages with
    | none => rw [ho] at ht; simp [truthy] at ht
    | some s =>
      rw [ho] at ht h
      have hs : ¬(s = "") := by simpa [truthy] using ht
      have : s = id := by simpa using h
      rw [← this]; exact hs
  · rw [getExtensionId_of_fallback ws (eq_false_of_ne_true ht)] at h
    cases hw : scanWorkers ws with
    | error e => rw [hw] at h; simp at h
    | ok o =>
      cases o with
      | none => rw [hw] at h; simp at h
      | some v =>
        rw [hw] at h
        by_cases hv : v = ""
        · simp [hv] at h
        · simp [hv] at h
          rw [← h]; exact hv

theorem scanPages_some {pages : List Page} {id : String}
    (h : scanPages pages = some id) :
    ∃ p ∈ pages, pageMatches p = true ∧ (pySplit p.url '/')[2]? = some id := by
  induction pages with
  | nil => simp [scanPages] at h
  | cons p rest ih =>
    by_cases hm : pageMatches p = true
    · rw [scanPages_cons_of_match rest hm] at h
      exact ⟨p, List.mem_cons_self p rest, hm, h⟩
    · rw [scanPages_cons_of_not_match rest (eq_false_of_ne_true hm)] at h
      obtain ⟨q, hq, hqm, hqg⟩ := ih h
      exact ⟨q, List.mem_cons_of_mem p hq, hqm, hqg⟩

theorem scanWorkers_ok_some {ws : List ServiceWorker} {id : String}
    (h : scanWorkers ws = Except.ok (some id)) :
    ∃ w ∈ ws, workerMatches w = true ∧ (pySplit w.url '/')[2]? = some id := by
  induction ws with
  | nil => simp [scanWorkers] at h
  | cons w rest ih =>
    by_cases hm : workerMatches w = true
    · rw [scanWorkers_cons_of_match rest hm] at h
      cases hpi : pyIndex (pySplit w.url '/') 2 with
      | ok v =>
        rw [hpi] at h
        simp [Except.map] at h
        exact ⟨w, List.mem_cons_self w rest, hm, by
          rw [← h]; exact pyIndex_eq_ok.mp hpi⟩
      | error e => rw [hpi] at h; simp [Except.map] at h
    · rw [scanWorkers_cons_of_not_match rest (eq_false_of_ne_true hm)] at h
      obtain ⟨v, hv, hvm, hvg⟩ := ih h
      exact ⟨v, List.mem_cons_of_mem w hv, hvm, hvg⟩

theorem pySplit_full_url {i : String} (rest : String) (h : '/' ∉ i.data) :
    (pySplit ("chrome-extension://" ++ i ++ "/" ++ rest) '/')[2]? = some i := by
  have hdata : ("chrome-extension://" ++ i ++ "/" ++ rest).data
      = "chrome-extension://".data ++ (i.data ++ ('/' :: rest.data)) := by
    have hs : ("/" : String).data = ['/'] := rfl
    simp [String.data_append, hs, List.append_assoc]
  have hdata2 : ("chrome-extension://" ++ i ++ "/" ++ rest).data
      = "chrome-extension:".data ++ '/' :: ('/' :: (i.data ++ '/' :: rest.data)) := by
    rw [hdata]; rfl
  have h1 : ∀ x ∈ "chrome-extension:".data, ¬((x == '/') = true) := by decide
  have h2 : ∀ x ∈ i.data, ¬((x == '/') = true) := by
    intro x hx hc
    exact h (by rwa [eq_of_beq hc] at hx)
  have hsplit : ("chrome-extension://" ++ i ++ "/" ++ rest).data.splitOn '/'
      = "chrome-extension:".data :: [] :: i.data :: rest.data.splitOnP (· == '/') := by
    rw [hdata2]
    show (("chrome-extension:".data ++ '/' :: ('/' :: (i.data ++ '/' :: rest.data))).splitOnP
      (· == '/')) = _
    rw [List.splitOnP_first _ _ h1 '/' (by decide), List.splitOnP_cons]
    simp only [beq_self_eq_true, if_pos]
    rw [List.splitOnP_first _ _ h2 '/' (by decide)]
  have hps : pySplit ("chrome-extension://" ++ i ++ "/" ++ rest) '/'
      = String.mk "chrome-extension:".data :: String.mk [] :: i ::
        (rest.data.splitOnP (· == '/')).map String.mk := by
    rw [pySplit, hsplit]
    rfl
  rw [hps]
  simp

theorem run_of_discovery_error {env : Env} {e : PyError}
    (h : getExtensionId env.pages env.workers = Except.error e) :
    test_theme_switching env = (startTrace, Except.error e) := by
  simp [test_theme_switching, h]

theorem run_of_timeout {env : Env} {id : String}
    (hid : getExtensionId env.pages env.workers = Except.ok id)
    (hv : themeVisible env = false) :
    test_theme_switching env = (timeoutTrace id, Except.error PyError.timeoutError) := by
  simp [test_theme_switching, hid, hv, timeoutTrace, startTrace]

theorem run_of_light_error {env : Env} {id : String} {e : PyError}
    (hid : getExtensionId env.pages env.workers = Except.ok id)
    (hv : themeVisible env = true) (hl : env.lightClick = Except.error e) :
    test_theme_switching env = (lightTrace id, Except.error e) := by
  simp [test_theme_switching, hid, hv, hl, lightTrace, timeoutTrace, startTrace]

theorem run_of_dark_error {env : Env} {id : String} {e : PyError}
    (hid : getExtensionId env.pages env.workers = Except.ok id)
    (hv : themeVisible env = true) (hl : env.lightClick = Except.ok ())
    (hd : env.darkClick = Except.error e) :
    test_theme_switching env = (darkTrace id, Except.error e) := by
  simp [test_theme_switching, hid, hv, hl, hd, darkTrace, lightTrace,
    timeoutTrace, startTrace]

theorem run_of_success {env : Env} {id : String}
    (hid : getExtensionId env.pages env.workers = Except.ok id)
    (hv : themeVisible env = true) (hl : env.lightClick = Except.ok ())
    (hd : env.darkClick = Except.ok ()) :
    test_theme_switching env = (fullTrace id, Except.ok ()) := by
  simp [test_theme_switching, hid, hv, hl, hd, fullTrace, darkTrace, lightTrace,
    timeoutTrace, startTrace]

end PasswordMemo

namespace PasswordMemo

example : scanPages [⟨"chrome-extension://abc/popup.html", Except.ok "Password Memo"⟩] =
    some "abc" := by decide

example : getExtensionId [] [⟨"chrome-extension://abc/background.js"⟩] =
    Except.ok "abc" := by decide

example : getExtensionId [] [⟨"background"⟩] = Except.error PyError.indexError := by
  decide

example : getExtensionId [] [] = Except.error (PyError.raised notFoundMsg) := by
  decide

/-- C1: if the page scan finds no truthy identifier and no service-worker
URL contains `background`, `test_theme_switching` raises the exception
`Could not find extension ID`, and its effect trace contains no navigation,
visibility wait, click or screenshot. -/
theorem C1_no_context_raises_not_found (env : Env)
    (hp : truthy (scanPages env.pages) = false)
    (hw : ∀ w ∈ env.workers, workerMatches w = false) :
    test_theme_switching env = (startTrace, Except.error (PyError.raised notFoundMsg)) ∧
    ∀ e ∈ (test_theme_switching env).1,
      e ≠ Event.newPage ∧ (∀ u, e ≠ Event.goto u) ∧
      (∀ t m, e ≠ Event.waitVisible t m) ∧ (∀ r n, e ≠ Event.click r n) ∧
      (∀ p, e ≠ Event.screenshot p) := by
  have hws := scanWorkers_of_none_match hw
  have hid : getExtensionId env.pages env.workers
      = Except.error (PyError.raised notFoundMsg) := by
    rw [getExtensionId_of_fallback env.workers hp, hws]
  have hrun := run_of_discovery_error hid
  refine ⟨hrun, ?_⟩
  rw [hrun]
  intro e he
  simp [startTrace] at he
  rcases he with rfl | rfl <;> simp

/-- Witness for C1 at a concrete environment with only a non-extension
page and a worker without `background` in its URL. -/
theorem C1_no_context_raises_not_found_witness :
    truthy (scanPages envNoContext.pages) = false ∧
    (∀ w ∈ envNoContext.workers, workerMatches w = false) ∧
    test_theme_switching envNoContext
      = (startTrace, Except.error (PyError.raised notFoundMsg)) :=
  ⟨by decide, by decide,
   (C1_no_context_raises_not_found envNoContext (by decide) (by decide)).1⟩

/-- C2: discovery tries the two strategies in a fixed order: the page scan
takes the first page whose URL starts with `chrome-extension://` and whose
title equals `Password Memo`, skipping non-matching pages; when the scan
yields a truthy identifier the service workers are irrelevant to the
result; the worker fallback takes the first worker whose URL contains
`background`, skipping the others; and when the scan is falsy a truthy
worker result is returned. -/
theorem C2_discovery_order :
    (∀ (p : Page) (rest : List Page), pageMatches p = true →
        scanPages (p :: rest) = (pySplit p.url '/')[2]?) ∧
    (∀ (p : Page) (rest : List Page), pageMatches p = false →
        scanPages (p :: rest) = scanPages rest) ∧
    (∀ (pages : List Page) (ws ws' : List ServiceWorker),
        truthy (scanPages pages) = true →
        getExtensionId pages ws = getExtensionId pages ws') ∧
    (∀ (w : ServiceWorker) (rest : List ServiceWorker), workerMatches w = true →
        scanWorkers (w :: rest) = Except.map some (pyIndex (pySplit w.url '/') 2)) ∧
    (∀ (w : ServiceWorker) (rest : List ServiceWorker), workerMatches w = false →
        scanWorkers (w :: rest) = scanWorkers rest) ∧
    (∀ (pages : List Page) (ws : List ServiceWorker) (id : String),
        truthy (scanPages pages) = false →
        scanWorkers ws = Except.ok (some id) → id ≠ "" →
        getExtensionId pages ws = Except.ok id) := by
  refine ⟨fun p rest h => scanPages_cons_of_match rest h,
    fun p rest h => scanPages_cons_of_not_match rest h,
    fun pages ws ws' h => ?_,
    fun w rest h => scanWorkers_cons_of_match rest h,
    fun w rest h => scanWorkers_cons_of_not_match rest h,
    fun pages ws id h hw hne => ?_⟩
  · rw [getExtensionId_of_truthy ws h, getExtensionId_of_truthy ws' h]
  · rw [getExtensionId_of_fallback ws h, hw]
    simp [hne]

/-- Witness for C2 at concrete inputs: a matching page is taken first,
workers do not affect a truthy page result, and the fallback returns the
first matching worker's identifier. -/
theorem C2_discovery_order_witness :
    scanPages [goodPage] = (pySplit goodPage.url '/')[2]? ∧
    getExtensionId [goodPage] [] = getExtensionId [goodPage] [shortWorker] ∧
    getExtensionId [] [bgWorker] = Except.ok "abc" :=
  ⟨C2_discovery_order.1 goodPage [] (by decide),
   C2_discovery_order.2.2.1 [goodPage] [] [shortWorker] (by decide),
   C2_discovery_order.2.2.2.2.2 [] [bgWorker] "abc" (by decide) (by decide)
     (by decide)⟩

/-- C3: every identifier discovery returns comes from a matching context
and equals element 2 of that context's URL split on `/`; for a URL of the
shape `chrome-extension://<id>/...` that element is `<id>`. -/
theorem C3_id_is_second_path_component :
    (∀ (pages : List Page) (ws : List ServiceWorker) (id : String),
        getExtensionId pages ws = Except.ok id →
        (∃ p ∈ pages, pageMatches p = true ∧ (pySplit p.url '/')[2]? = some id) ∨
        (∃ w ∈ ws, workerMatches w = true ∧ (pySplit w.url '/')[2]? = some id)) ∧
    (∀ (i rest : String), '/' ∉ i.data →
        (pySplit ("chrome-extension://" ++ i ++ "/" ++ rest) '/')[2]? = some i) := by
  constructor
  · intro pages ws id h
    rcases getExtensionId_ok_cases h with h | h
    · exact Or.inl (scanPages_some h)
    · exact Or.inr (scanWorkers_ok_some h)
  · intro i rest h
    exact pySplit_full_url rest h

/-- Witness for C3: the identifier `abc` discovered from the background
worker is the second path component, and the second component of
`chrome-extension://abc/options.html` is `abc`. -/
theorem C3_id_is_second_path_component_witness :
    ((∃ p ∈ ([] : List Page), pageMatches p = true ∧
        (pySplit p.url '/')[2]? = some "abc") ∨
     (∃ w ∈ [bgWorker], workerMatches w = true ∧
        (pySplit w.url '/')[2]? = some "abc")) ∧
    (pySplit ("chrome-extension://" ++ "abc" ++ "/" ++ "options.html") '/')[2]?
      = some "abc" :=
  ⟨C3_id_is_second_path_component.1 [] [bgWorker] "abc" (by decide),
   C3_id_is_second_path_component.2 "abc" "options.html" (by decide)⟩

/-- C4: after discovery succeeds with identifier `id`, the run opens a new
page and navigates to exactly `chrome-extension://<id>/options.html`, then
waits for the text `Theme` with a timeout of exactly 10000 ms; if the text
does not become visible within that bound, the run ends with a propagated
`TimeoutError` and no screenshot is taken. -/
theorem C4_navigation_and_timeout (env : Env) (id : String)
    (hid : getExtensionId env.pages env.workers = Except.ok id) :
    expectTimeout = 10000 ∧
    optionsPageUrl id = "chrome-extension://" ++ id ++ "/options.html" ∧
    (test_theme_switching env).1.take 5 = timeoutTrace id ∧
    (themeVisible env = false →
      test_theme_switching env = (timeoutTrace id, Except.error PyError.timeoutError) ∧
      ∀ p, Event.screenshot p ∉ (test_theme_switching env).1) := by
  refine ⟨rfl, rfl, ?_, fun hv => ?_⟩
  · by_cases hv : themeVisible env
    · cases hl : env.lightClick with
      | error e =>
        rw [run_of_light_error hid hv hl]
        simp [lightTrace, timeoutTrace]
      | ok u =>
        cases u
        cases hd : env.darkClick with
        | error e =>
          rw [run_of_dark_error hid hv hl hd]
          simp [darkTrace, lightTrace, timeoutTrace]
        | ok v =>
          cases v
          rw [run_of_success hid hv hl hd]
          simp [fullTrace, darkTrace, lightTrace, timeoutTrace]
    · rw [run_of_timeout hid (eq_false_of_ne_true hv)]
      simp [timeoutTrace]
  · refine ⟨run_of_timeout hid hv, ?_⟩
    rw [run_of_timeout hid hv]
    intro p
    simp [timeoutTrace]

/-- Witness for C4 at a concrete environment where the worker fallback
discovers `abc` and the text never becomes visible. -/
theorem C4_navigation_and_timeout_witness :
    getExtensionId envTimeout.pages envTimeout.workers = Except.ok "abc" ∧
    themeVisible envTimeout = false ∧
    test_theme_switching envTimeout
      = (timeoutTrace "abc", Except.error PyError.timeoutError) :=
  ⟨by decide, by decide,
   ((C4_navigation_and_timeout envTimeout "abc" (by decide)).2.2.2 (by decide)).1⟩

/-- C5: on the successful path the run performs, after the visibility
wait, exactly: directory creation, screenshot `01_default_theme.png`,
click `Light`, screenshot `02_light_theme.png`, click `Dark`, screenshot
`03_dark_theme.png`, close; and each screenshot overwrites whatever any
initial file system stored at its path (the final contents at the three
paths do not depend on the initial file system). -/
theorem C5_success_sequence (env : Env) (id : String)
    (hid : getExtensionId env.pages env.workers = Except.ok id)
    (hv : themeVisible env = true)
    (hl : env.lightClick = Except.ok ())
    (hd : env.darkClick = Except.ok ()) :
    test_theme_switching env =
      (timeoutTrace id ++
        [Event.mkdirs verificationDir true, Event.screenshot shot1,
         Event.click "button" "Light", Event.screenshot shot2,
         Event.click "button" "Dark", Event.screenshot shot3,
         Event.closeContext], Except.ok ()) ∧
    (∀ fs : String → Option Nat,
      fsAfter (test_theme_switching env).1 fs 0 shot1 = some 6 ∧
      fsAfter (test_theme_switching env).1 fs 0 shot2 = some 8 ∧
      fsAfter (test_theme_switching env).1 fs 0 shot3 = some 10) := by
  have hrun := run_of_success hid hv hl hd
  have h12 : ¬(shot1 = shot2) := by decide
  have h13 : ¬(shot1 = shot3) := by decide
  have h23 : ¬(shot2 = shot3) := by decide
  have h21 : ¬(shot2 = shot1) := by decide
  have h31 : ¬(shot3 = shot1) := by decide
  have h32 : ¬(shot3 = shot2) := by decide
  constructor
  · rw [hrun]
    simp [fullTrace, darkTrace, lightTrace, List.append_assoc]
  · intro fs
    rw [hrun]
    refine ⟨?_, ?_, ?_⟩ <;>
      simp [fullTrace, darkTrace, lightTrace, timeoutTrace, fsAfter,
        h12, h13, h23, h21, h31, h32]

/-- Witness for C5 at a concrete fully successful environment. -/
theorem C5_success_sequence_witness :
    getExtensionId envSuccess.pages envSuccess.workers = Except.ok "abc" ∧
    test_theme_switching envSuccess =
      (timeoutTrace "abc" ++
        [Event.mkdirs verificationDir true, Event.screenshot shot1,
         Event.click "button" "Light", Event.screenshot shot2,
         Event.click "button" "Dark", Event.screenshot shot3,
         Event.closeContext], Except.ok ()) :=
  ⟨by decide,
   (C5_success_sequence envSuccess "abc" (by decide) (by decide) rfl rfl).1⟩

/-- C6: creating the screenshot directory with `exist_ok=True` is
idempotent: it succeeds on any starting set of directories, and running it
on its own result changes nothing. -/
theorem C6_makedirs_idempotent :
    ∀ dirs : Finset String,
      makedirs dirs verificationDir true
        = Except.ok (dirs ∪ (ancestors verificationDir).toFinset) ∧
      ∀ dirs', makedirs dirs verificationDir true = Except.ok dirs' →
        makedirs dirs' verificationDir true = Except.ok dirs' := by
  intro dirs
  constructor
  · simp [makedirs]
  · intro dirs' hmk
    have hd : dirs' = dirs ∪ (ancestors verificationDir).toFinset := by
      have h' := hmk
      simp [makedirs] at h'
      exact h'.symm
    subst hd
    simp [makedirs, Finset.union_assoc, Finset.union_self]

/-- Witness for C6 starting from the empty directory set. -/
theorem C6_makedirs_idempotent_witness :
    makedirs ((∅ : Finset String) ∪ (ancestors verificationDir).toFinset)
      verificationDir true
      = Except.ok ((∅ : Finset String) ∪ (ancestors verificationDir).toFinset) :=
  (C6_makedirs_idempotent ∅).2 _ (C6_makedirs_idempotent ∅).1

/-- C7 counterexample: the claim that every exception propagates and
aborts the run is false: in `envSuppressed` the first page's URL passes the
scheme filter, its title query raises, and yet the run completes
successfully — the exception was swallowed by `except Exception: pass`. -/
theorem C7_counterexample_title_error_suppressed :
    titleErrPage ∈ envSuppressed.pages ∧
    pyStartsWith titleErrPage.url extensionScheme = true ∧
    titleErrPage.title = Except.error () ∧
    test_theme_switching envSuppressed = (fullTrace "goodid", Except.ok ()) := by
  refine ⟨by decide, by decide, rfl, ?_⟩
  decide

/-- C7 (amended): exceptions raised while querying a page's title during
the page scan are suppressed and the scan continues with the next page;
every other modelled failure — a discovery error (including the worker
loop's `IndexError`), the visibility timeout, and either click error —
propagates and aborts the run at that point. -/
theorem C7_amended_error_propagation :
    (∀ (p : Page) (rest : List Page), pyStartsWith p.url extensionScheme = true →
        p.title = Except.error () → scanPages (p :: rest) = scanPages rest) ∧
    (∀ (env : Env) (e : PyError), getExtensionId env.pages env.workers = Except.error e →
        test_theme_switching env = (startTrace, Except.error e)) ∧
    (∀ (env : Env) (id : String), getExtensionId env.pages env.workers = Except.ok id →
        themeVisible env = false →
        test_theme_switching env = (timeoutTrace id, Except.error PyError.timeoutError)) ∧
    (∀ (env : Env) (id : String) (e : PyError),
        getExtensionId env.pages env.workers = Except.ok id →
        themeVisible env = true → env.lightClick = Except.error e →
        test_theme_switching env = (lightTrace id, Except.error e)) ∧
    (∀ (env : Env) (id : String) (e : PyError),
        getExtensionId env.pages env.workers = Except.ok id →
        themeVisible env = true → env.lightClick = Except.ok () →
        env.darkClick = Except.error e →
        test_theme_switching env = (darkTrace id, Except.error e)) := by
  refine ⟨?_, fun env e h => run_of_discovery_error h,
    fun env id h hv => run_of_timeout h hv,
    fun env id e h hv hl => run_of_light_error h hv hl,
    fun env id e h hv hl hd => run_of_dark_error h hv hl hd⟩
  intro p rest h1 h2
  simp [scanPages, h1, h2]

/-- Witness for C7 (amended): the title-error page is skipped by the scan. -/
theorem C7_amended_error_propagation_witness :
    scanPages [titleErrPage] = scanPages [] :=
  C7_amended_error_propagation.1 titleErrPage [] (by decide) rfl

/-- C8: discovery never returns an empty identifier, and every navigation
event in any run's trace carries the options URL of a non-empty discovered
identifier. -/
theorem C8_navigation_id_truthy :
    (∀ (pages : List Page) (ws : List ServiceWorker) (id : String),
        getExtensionId pages ws = Except.ok id → id ≠ "") ∧
    (∀ (env : Env) (u : String), Event.goto u ∈ (test_theme_switching env).1 →
        ∃ id, getExtensionId env.pages env.workers = Except.ok id ∧ id ≠ "" ∧
          u = optionsPageUrl id) := by
  refine ⟨fun pages ws id h => getExtensionId_ok_ne_empty h, ?_⟩
  intro env u hmem
  cases hid : getExtensionId env.pages env.workers with
  | error e =>
    rw [run_of_discovery_error hid] at hmem
    simp [startTrace] at hmem
  | ok id =>
    refine ⟨id, rfl, getExtensionId_ok_ne_empty hid, ?_⟩
    by_cases hv : themeVisible env
    · cases hl : env.lightClick with
      | error e =>
        rw [run_of_light_error hid hv hl] at hmem
        simpa [lightTrace, timeoutTrace] using hmem
      | ok u' =>
        cases u'
        cases hd : env.darkClick with
        | error e =>
          rw [run_of_dark_error hid hv hl hd] at hmem
          simpa [darkTrace, lightTrace, timeoutTrace] using hmem
        | ok v' =>
          cases v'
          rw [run_of_success hid hv hl hd] at hmem
          simpa [fullTrace, darkTrace, lightTrace, timeoutTrace] using hmem
    · rw [run_of_timeout hid (eq_false_of_ne_true hv)] at hmem
      simpa [timeoutTrace] using hmem

/-- Witness for C8: the concrete discovered identifier `abc` is non-empty. -/
theorem C8_navigation_id_truthy_witness :
    getExtensionId [] [bgWorker] = Except.ok "abc" ∧ "abc" ≠ "" :=
  ⟨by decide, C8_navigation_id_truthy.1 [] [bgWorker] "abc" (by decide)⟩

/-- C9: a service worker whose URL is just `background` matches the
fallback's substring test, its URL splits into a single component, and
discovery then raises `IndexError` instead of the documented
`Could not find extension ID` exception. -/
theorem C9_short_background_url_index_error :
    workerMatches shortWorker = true ∧
    (pySplit shortWorker.url '/').length = 1 ∧
    getExtensionId [] [shortWorker] = Except.error PyError.indexError ∧
    PyError.indexError ≠ PyError.raised notFoundMsg := by
  refine ⟨by decide, by decide, by decide, by decide⟩

/-- C10: the page scan stops at the first matching page even when the
extracted identifier is empty (URL `chrome-extension://`), never examining
later pages, and discovery then behaves exactly as if no page had matched:
it proceeds to the service-worker fallback. -/
theorem C10_empty_page_id_falls_back :
    ∀ (rest : List Page) (ws : List ServiceWorker),
      scanPages (emptyIdPage :: rest) = some "" ∧
      getExtensionId (emptyIdPage :: rest) ws = getExtensionId [] ws := by
  intro rest ws
  have hm : pageMatches emptyIdPage = true := by decide
  have h1 : scanPages (emptyIdPage :: rest) = some "" := by
    rw [scanPages_cons_of_match rest hm]
    decide
  refine ⟨h1, ?_⟩
  have hf1 : truthy (scanPages (emptyIdPage :: rest)) = false := by
    rw [h1]; decide
  have hf2 : truthy (scanPages ([] : List Page)) = false := by decide
  rw [getExtensionId_of_fallback ws hf1, getExtensionId_of_fallback ws hf2]

end PasswordMemo
